import Mathlib

/-!
Verification of the octant s-coordinate depth machinery (`octant/depths.py`),
the curvilinear C-grid engine (`octant/grid.py`) and the ocean `Depths`
indexing object (`octant/ocean/depths.py`), via a shallow embedding of the
Python source into Lean.  Machine floats are modelled by real numbers; numpy
elementwise array expressions over a scalar bathymetry are modelled pointwise.
-/

open scoped Classical

set_option linter.unusedVariables false

noncomputable section

namespace Octant

/-- Result of calling a Python function: a normal return value, a bare
`None` return (as when an `if`/`elif` chain falls through with no `else`),
or a raised exception (`raise` or a failed `assert`). -/
inductive PyResult (α : Type) where
  | ok : α → PyResult α
  | retNone : PyResult α
  | raised : PyResult α
  deriving DecidableEq

/-- `C(s)` built by `get_Vstretching_1(theta_s, theta_b)`
(src/octant/depths.py lines 96-101):
`(1 - b) * (sinh(s*a)/sinh(a)) + b * (-0.5 + 0.5*tanh(a*(s+0.5))/tanh(0.5*a))`. -/
def Vstretching_1 (theta_s theta_b : ℝ) (s : ℝ) : ℝ :=
  (1 - theta_b) * (Real.sinh (s * theta_s) / Real.sinh theta_s) +
    theta_b * (-0.5 + 0.5 * Real.tanh (theta_s * (s + 0.5)) / Real.tanh (0.5 * theta_s))

/-- `C(s)` built by `get_Vstretching_2(theta_s, theta_b)`
(src/octant/depths.py lines 133-135); `theta_b` is accepted and ignored by
the source, as here. -/
def Vstretching_2 (theta_s theta_b : ℝ) (s : ℝ) : ℝ :=
  (1.0 - Real.cosh (theta_s * s)) / (Real.cosh theta_s - 1.0)

/-- The local `Cbot` of `get_Vstretching_3` (src/octant/depths.py line 189).
`x ** y` on nonnegative float bases is modelled by `Real.rpow`, which agrees
with numpy on the inputs reached here, including `0.0 ** 0.0 = 1.0`. -/
def Vstretching_3_Cbot (theta_b Hscale : ℝ) (s : ℝ) : ℝ :=
  Real.log (Real.cosh (Hscale * (s + 1.0) ^ theta_b)) /
    Real.log (Real.cosh Hscale) - 1.0

/-- The local `Csur` of `get_Vstretching_3` (src/octant/depths.py line 190). -/
def Vstretching_3_Csur (theta_s Hscale : ℝ) (s : ℝ) : ℝ :=
  -Real.log (Real.cosh (Hscale * |s| ^ theta_s)) /
    Real.log (Real.cosh Hscale)

/-- The local `Cweight` of `get_Vstretching_3` (src/octant/depths.py line 191). -/
def Vstretching_3_Cweight (Hscale : ℝ) (s : ℝ) : ℝ :=
  0.5 * (1.0 - Real.tanh (Hscale * (s + 0.5)))

/-- `C(s)` built by `get_Vstretching_3(theta_s, theta_b, Hscale)`
(src/octant/depths.py lines 184-193). -/
def Vstretching_3 (theta_s theta_b Hscale : ℝ) (s : ℝ) : ℝ :=
  Vstretching_3_Cweight Hscale s * Vstretching_3_Cbot theta_b Hscale s +
    (1.0 - Vstretching_3_Cweight Hscale s) * Vstretching_3_Csur theta_s Hscale s

/-- `C(s)` built by `get_Vstretching_4(theta_s, theta_b)`
(src/octant/depths.py lines 240-246): the cosh curve, then for `theta_b > 0`
the secondary exponential stretching, otherwise the negation of the cosh
curve (the source's `return -C`). -/
def Vstretching_4 (theta_s theta_b : ℝ) (s : ℝ) : ℝ :=
  let C := (1.0 - Real.cosh (theta_s * s)) / (Real.cosh theta_s - 1.0)
  if theta_b > 0.0 then (Real.exp (theta_b * C) - 1.0) / (1.0 - Real.exp (-theta_b))
  else -C

/-- Parameter assertions of `get_Vstretching_1`:
`0 < theta_s <= 8` and `0 <= theta_b <= 1`. -/
def ValidParams_1 (theta_s theta_b : ℝ) : Prop :=
  (0 < theta_s ∧ theta_s ≤ 8) ∧ (0 ≤ theta_b ∧ theta_b ≤ 1)

/-- Parameter assertions of `get_Vstretching_3`:
`0 < theta_s` and `0 <= theta_b`. -/
def ValidParams_3 (theta_s theta_b : ℝ) : Prop :=
  0 < theta_s ∧ 0 ≤ theta_b

/-- Parameter assertions of `get_Vstretching_4`:
`0 < theta_s <= 10` and `0 <= theta_b <= 3`. -/
def ValidParams_4 (theta_s theta_b : ℝ) : Prop :=
  (0 < theta_s ∧ theta_s ≤ 10) ∧ (0 ≤ theta_b ∧ theta_b ≤ 3)

/-- `get_Vstretching(Vstretching, theta_s, theta_b, Hscale)`
(src/octant/depths.py lines 255-275): dispatch on the stretching kind,
modelling each variant's failed parameter `assert` and the final
`raise Exception` by `PyResult.raised`. -/
def get_Vstretching (Vstretching : ℤ) (theta_s theta_b Hscale : ℝ) :
    PyResult (ℝ → ℝ) :=
  if Vstretching = 1 then
    if ValidParams_1 theta_s theta_b then .ok (Vstretching_1 theta_s theta_b) else .raised
  else if Vstretching = 2 then .ok (Vstretching_2 theta_s theta_b)
  else if Vstretching = 3 then
    if ValidParams_3 theta_s theta_b then .ok (Vstretching_3 theta_s theta_b Hscale) else .raised
  else if Vstretching = 4 then
    if ValidParams_4 theta_s theta_b then .ok (Vstretching_4 theta_s theta_b) else .raised
  else .raised

/-- `Zo(s)` of `get_Vtransform_1(C, h, hc)` (src/octant/depths.py line 312),
for a scalar bathymetry value `h`: `hc*(s - C(s)) + C(s)*h`. -/
def Zo_1 (C : ℝ → ℝ) (h hc : ℝ) (s : ℝ) : ℝ :=
  hc * (s - C s) + C s * h

/-- `Zo(s)` of `get_Vtransform_2(C, h, hc)` (src/octant/depths.py line 348),
for a scalar bathymetry value `h`: `(hc*s + C(s)*h) / (hc + h)`. -/
def Zo_2 (C : ℝ → ℝ) (h hc : ℝ) (s : ℝ) : ℝ :=
  (hc * s + C s * h) / (hc + h)

/-- `depths(s, zeta)` returned by `get_depths(1, C, h, hc)`
(src/octant/depths.py lines 381-383): `Zo(s) + zeta*(1 + Zo(s)/h)`. -/
def depths_1 (C : ℝ → ℝ) (h hc : ℝ) (s zeta : ℝ) : ℝ :=
  Zo_1 C h hc s + zeta * (1 + Zo_1 C h hc s / h)

/-- `depths(s, zeta)` returned by `get_depths(2, C, h, hc)`
(src/octant/depths.py lines 390-392): `zeta + (zeta + h)*Zo(s)`. -/
def depths_2 (C : ℝ → ℝ) (h hc : ℝ) (s zeta : ℝ) : ℝ :=
  zeta + (zeta + h) * Zo_2 C h hc s

/-- `get_depths(Vtransform, C, h, hc)` (src/octant/depths.py lines 357-396).
The source's `if Vtransform == 1 ... elif Vtransform == 2 ...` chain has no
`else`, so any other kind makes the function return `None`, modelled by
`PyResult.retNone`. -/
def get_depths (Vtransform : ℤ) (C : ℝ → ℝ) (h hc : ℝ) :
    PyResult (ℝ → ℝ → ℝ) :=
  if Vtransform = 1 then .ok (fun s zeta => depths_1 C h hc s zeta)
  else if Vtransform = 2 then .ok (fun s zeta => depths_2 C h hc s zeta)
  else .retNone

/-- `np.linspace(a, b, num)[k]`: the `k`-th of `num` evenly spaced values
from `a` to `b` inclusive. -/
def linspace (a b : ℝ) (num : ℕ) (k : ℕ) : ℝ :=
  a + (b - a) * k / ((num : ℝ) - 1)

/-- `get_sw(N)[k]` (src/octant/depths.py lines 402-404):
`np.linspace(-1.0, 0.0, N)`. -/
def get_sw (N : ℕ) (k : ℕ) : ℝ :=
  linspace (-1.0) 0.0 N k

/-- `get_srho(N)[k]` (src/octant/depths.py lines 407-410): midpoints of the
`N+1` evenly spaced values `np.linspace(-1.0, 0.0, N+1)`. -/
def get_srho (N : ℕ) (k : ℕ) : ℝ :=
  0.5 * (linspace (-1.0) 0.0 (N + 1) (k + 1) + linspace (-1.0) 0.0 (N + 1) k)

/-- `get_zrho(Vtransform, Vstretching, N, theta_s, theta_b, h, hc, zeta, Hscale)`
(src/octant/depths.py lines 433-437), for a scalar bathymetry `h`, as the
function sending the vertical index `k` to the depth at the `k`-th rho-point.
Calling the `None` returned by `get_depths` on a bad `Vtransform` raises a
`TypeError` in Python, modelled by `PyResult.raised`. -/
def get_zrho (Vtransform Vstretching : ℤ) (N : ℕ)
    (theta_s theta_b h hc zeta Hscale : ℝ) : PyResult (ℕ → ℝ) :=
  match get_Vstretching Vstretching theta_s theta_b Hscale with
  | .ok C =>
    match get_depths Vtransform C h hc with
    | .ok d => .ok (fun k => d (get_srho N k) zeta)
    | .retNone => .raised
    | .raised => .raised
  | .retNone => .raised
  | .raised => .raised

/-- The Coriolis parameter stored by `CGrid.__init__` for a geographic grid
constructed with `f=None` (src/octant/grid.py line 574), per rho-point
latitude in degrees: `2 * 7.29e-5 * np.cos(self.lat_rho * np.pi / 180.)`. -/
def CGrid_coriolis (lat : ℝ) : ℝ :=
  2 * 7.29e-5 * Real.cos (lat * Real.pi / 180)

/-- The rho-point depths produced by the C3 scenario
`get_zrho(Vtransform=2, Vstretching=4, N=10, theta_s=5.0, theta_b=0.0,
h=100.0, hc=20.0, zeta=0)`: the function the dispatchers of `get_zrho`
assemble at these arguments (see `zrho_scenario_violation`). -/
def zrho_scenario (k : ℕ) : ℝ :=
  depths_2 (Vstretching_4 5 0) 100 20 (get_srho 10 k) 0

/-- The layer thicknesses `get_Hz` builds from a given `depths` function
(src/octant/depths.py lines 439-443): `np.diff(depths(get_sw(N+1), zeta))`,
i.e. the `N` pairwise differences of depths at the `N+1` evenly spaced
w-levels. -/
def HzList (depths : ℝ → ℝ → ℝ) (N : ℕ) (zeta : ℝ) : List ℝ :=
  (List.range N).map fun k =>
    depths (get_sw (N + 1) (k + 1)) zeta - depths (get_sw (N + 1) k) zeta

/-! ### 2-D arrays and the C-grid engine (src/octant/grid.py)

numpy 2-D arrays are modelled by a recorded shape together with a total
entry function; basic slices and elementwise operations mirror the numpy
expressions used by `CGrid`. -/

/-- A 2-D numpy array: a shape and an entry function (entries outside the
shape are irrelevant). -/
structure Arr2 where
  rows : ℕ
  cols : ℕ
  entry : ℕ → ℕ → ℝ

/-- `a[r0 : rows - rend, c0 : cols - cend]`: the numpy basic slice dropping
`r0` leading / `rend` trailing rows and `c0` leading / `cend` trailing
columns. -/
def Arr2.slice (a : Arr2) (r0 rend c0 cend : ℕ) : Arr2 :=
  ⟨a.rows - r0 - rend, a.cols - c0 - cend, fun i j => a.entry (i + r0) (j + c0)⟩

/-- Elementwise sum of same-shaped arrays. -/
def Arr2.add (a b : Arr2) : Arr2 :=
  ⟨a.rows, a.cols, fun i j => a.entry i j + b.entry i j⟩

/-- Elementwise product of same-shaped arrays. -/
def Arr2.mul (a b : Arr2) : Arr2 :=
  ⟨a.rows, a.cols, fun i j => a.entry i j * b.entry i j⟩

/-- Scalar multiple. -/
def Arr2.smul (c : ℝ) (a : Arr2) : Arr2 :=
  ⟨a.rows, a.cols, fun i j => c * a.entry i j⟩

/-- `np.diff(a, axis=0)`. -/
def Arr2.diffRows (a : Arr2) : Arr2 :=
  ⟨a.rows - 1, a.cols, fun i j => a.entry (i + 1) j - a.entry i j⟩

/-- `np.diff(a, axis=1)`. -/
def Arr2.diffCols (a : Arr2) : Arr2 :=
  ⟨a.rows, a.cols - 1, fun i j => a.entry i (j + 1) - a.entry i j⟩

/-- Elementwise `np.sqrt`. -/
def Arr2.sqrtA (a : Arr2) : Arr2 :=
  ⟨a.rows, a.cols, fun i j => Real.sqrt (a.entry i j)⟩

/-- `np.ones((r, c))`. -/
def Arr2.ones (r c : ℕ) : Arr2 :=
  ⟨r, c, fun _ _ => 1⟩

/-- Rho points from vertices (src/octant/grid.py lines 581-584):
`0.25*(v[1:,1:] + v[1:,:-1] + v[:-1,1:] + v[:-1,:-1])`. -/
def calc_rho (v : Arr2) : Arr2 :=
  Arr2.smul 0.25
    ((((v.slice 1 0 1 0).add (v.slice 1 0 0 1)).add (v.slice 0 1 1 0)).add
      (v.slice 0 1 0 1))

/-- u points from vertices (src/octant/grid.py lines 585-586):
`0.5*(v[:-1,1:-1] + v[1:,1:-1])`. -/
def calc_u (v : Arr2) : Arr2 :=
  Arr2.smul 0.5 ((v.slice 0 1 1 1).add (v.slice 1 0 1 1))

/-- v points from vertices (src/octant/grid.py lines 587-588):
`0.5*(v[1:-1,:-1] + v[1:-1,1:])`. -/
def calc_v (v : Arr2) : Arr2 :=
  Arr2.smul 0.5 ((v.slice 1 1 0 1).add (v.slice 1 1 1 0))

/-- psi points from vertices (src/octant/grid.py lines 589-590):
`v[1:-1,1:-1]`. -/
def calc_psi (v : Arr2) : Arr2 :=
  v.slice 1 1 1 1

/-- `dx` for a Cartesian grid (src/octant/grid.py lines 613-615):
row-averaged vertices, differenced along columns, Euclidean norm. -/
def calc_dx (x y : Arr2) : Arr2 :=
  Arr2.sqrtA
    ((((Arr2.smul 0.5 ((x.slice 1 0 0 0).add (x.slice 0 1 0 0))).diffCols).mul
        ((Arr2.smul 0.5 ((x.slice 1 0 0 0).add (x.slice 0 1 0 0))).diffCols)).add
      (((Arr2.smul 0.5 ((y.slice 1 0 0 0).add (y.slice 0 1 0 0))).diffCols).mul
        ((Arr2.smul 0.5 ((y.slice 1 0 0 0).add (y.slice 0 1 0 0))).diffCols)))

/-- `dy` for a Cartesian grid (src/octant/grid.py lines 616-618):
column-averaged vertices, differenced along rows, Euclidean norm. -/
def calc_dy (x y : Arr2) : Arr2 :=
  Arr2.sqrtA
    ((((Arr2.smul 0.5 ((x.slice 0 0 1 0).add (x.slice 0 0 0 1))).diffRows).mul
        ((Arr2.smul 0.5 ((x.slice 0 0 1 0).add (x.slice 0 0 0 1))).diffRows)).add
      (((Arr2.smul 0.5 ((y.slice 0 0 1 0).add (y.slice 0 0 0 1))).diffRows).mul
        ((Arr2.smul 0.5 ((y.slice 0 0 1 0).add (y.slice 0 0 0 1))).diffRows)))

/-- `dndx` (src/octant/grid.py lines 621-630): zeros of `x_rho`'s shape with
the interior assigned `0.5*(dy[1:-1,2:] - dy[1:-1,:-2])`. -/
def calc_dndx (x y : Arr2) : Arr2 :=
  ⟨x.rows - 1, x.cols - 1, fun i j =>
    if 1 ≤ i ∧ i + 1 < x.rows - 1 ∧ 1 ≤ j ∧ j + 1 < x.cols - 1 then
      0.5 * ((calc_dy x y).entry i (j + 1) - (calc_dy x y).entry i (j - 1))
    else 0⟩

/-- `dmde` (src/octant/grid.py lines 625-631): zeros of `x_rho`'s shape with
the interior assigned `0.5*(dx[2:,1:-1] - dx[:-2,1:-1])`. -/
def calc_dmde (x y : Arr2) : Arr2 :=
  ⟨x.rows - 1, x.cols - 1, fun i j =>
    if 1 ≤ i ∧ i + 1 < x.rows - 1 ∧ 1 ≤ j ∧ j + 1 < x.cols - 1 then
      0.5 * ((calc_dx x y).entry (i + 1) j - (calc_dx x y).entry (i - 1) j)
    else 0⟩

/-- `np.arctan2(y, x)`, modelled as the argument of the complex number
`x + i*y` (the same principal branch; the signed-zero distinctions of IEEE
floats do not exist in `ℝ`). -/
def arctan2 (y x : ℝ) : ℝ :=
  Complex.arg ⟨x, y⟩

/-- Elementwise `np.arctan2` of two same-shaped arrays. -/
def Arr2.arctan2A (ya xa : Arr2) : Arr2 :=
  ⟨ya.rows, ya.cols, fun i j => arctan2 (ya.entry i j) (xa.entry i j)⟩

/-- Subtract a scalar from every entry. -/
def Arr2.subConst (a : Arr2) (c : ℝ) : Arr2 :=
  ⟨a.rows, a.cols, fun i j => a.entry i j - c⟩

/-- The local `angle_ud` of `_calculate_metrics` (src/octant/grid.py line
639): `arctan2(diff(y_vert, axis=1), diff(x_vert, axis=1))`. -/
def calc_angle_ud (x y : Arr2) : Arr2 :=
  Arr2.arctan2A y.diffCols x.diffCols

/-- The local `angle_lr` of `_calculate_metrics` (src/octant/grid.py line
640): `arctan2(diff(y_vert, axis=0), diff(x_vert, axis=0)) - pi/2`. -/
def calc_angle_lr (x y : Arr2) : Arr2 :=
  (Arr2.arctan2A y.diffRows x.diffRows).subConst (Real.pi / 2.0)

/-- The stored `angle` array (src/octant/grid.py lines 633-653): zeros of
`x_vert`'s shape, then the interior, the four edges and the four corners
assigned from `angle_ud` / `angle_lr` slices.  The branches are tested in
the reverse of the source's assignment order, so that where regions could
overlap (degenerate one-row/one-column shapes) the last numpy write wins,
exactly as in the source; for shapes with at least two rows and columns the
regions are disjoint. -/
def calc_angle (x y : Arr2) : Arr2 :=
  ⟨x.rows, x.cols, fun i j =>
    if i = x.rows - 1 ∧ j = x.cols - 1 then
      0.5 * ((calc_angle_lr x y).entry (x.rows - 2) (x.cols - 1) +
        (calc_angle_ud x y).entry (x.rows - 1) (x.cols - 2))
    else if i = x.rows - 1 ∧ j = 0 then
      0.5 * ((calc_angle_lr x y).entry (x.rows - 2) 0 +
        (calc_angle_ud x y).entry (x.rows - 1) 0)
    else if i = 0 ∧ j = x.cols - 1 then
      0.5 * ((calc_angle_lr x y).entry 0 (x.cols - 1) +
        (calc_angle_ud x y).entry 0 (x.cols - 2))
    else if i = 0 ∧ j = 0 then
      0.5 * ((calc_angle_lr x y).entry 0 0 + (calc_angle_ud x y).entry 0 0)
    else if 1 ≤ i ∧ i + 1 < x.rows ∧ j = x.cols - 1 then
      1.0 / 3.0 * ((calc_angle_ud x y).entry i (x.cols - 2) +
        (calc_angle_lr x y).entry i (x.cols - 1) +
        (calc_angle_lr x y).entry (i - 1) (x.cols - 1))
    else if 1 ≤ i ∧ i + 1 < x.rows ∧ j = 0 then
      1.0 / 3.0 * ((calc_angle_ud x y).entry i 0 +
        (calc_angle_lr x y).entry i 0 + (calc_angle_lr x y).entry (i - 1) 0)
    else if i = x.rows - 1 ∧ 1 ≤ j ∧ j + 1 < x.cols then
      1.0 / 3.0 * ((calc_angle_lr x y).entry (x.rows - 2) j +
        (calc_angle_ud x y).entry (x.rows - 1) j +
        (calc_angle_ud x y).entry (x.rows - 1) (j - 1))
    else if i = 0 ∧ 1 ≤ j ∧ j + 1 < x.cols then
      1.0 / 3.0 * ((calc_angle_lr x y).entry 0 j +
        (calc_angle_ud x y).entry 0 j + (calc_angle_ud x y).entry 0 (j - 1))
    else if 1 ≤ i ∧ i + 1 < x.rows ∧ 1 ≤ j ∧ j + 1 < x.cols then
      0.25 * ((calc_angle_ud x y).entry i j +
        (calc_angle_ud x y).entry i (j - 1) + (calc_angle_lr x y).entry i j +
        (calc_angle_lr x y).entry (i - 1) j)
    else 0⟩

/-- The stored `angle_rho` array (src/octant/grid.py lines 655-656):
`arctan2(diff(0.5*(y_vert[1:,:] + y_vert[:-1,:])),
diff(0.5*(x_vert[1:,:] + x_vert[:-1,:])))` (`np.diff` along the last
axis). -/
def calc_angle_rho (x y : Arr2) : Arr2 :=
  Arr2.arctan2A
    ((Arr2.smul 0.5 ((y.slice 1 0 0 0).add (y.slice 0 1 0 0))).diffCols)
    ((Arr2.smul 0.5 ((x.slice 1 0 0 0).add (x.slice 0 1 0 0))).diffCols)

/-- The attributes a Cartesian `CGrid` instance stores after `__init__`
(src/octant/grid.py lines 516-578): the vertex arrays, `mask_rho`, and the
derived point families and metric arrays computed once by
`_calculate_subgrids` / `_calculate_metrics`.  `mask_u`, `mask_v` and
`mask_psi` are NOT stored: they are `property` accessors (lines 695-712). -/
structure CGrid where
  x_vert : Arr2
  y_vert : Arr2
  mask_rho : Arr2
  x_rho : Arr2
  y_rho : Arr2
  x_u : Arr2
  y_u : Arr2
  x_v : Arr2
  y_v : Arr2
  x_psi : Arr2
  y_psi : Arr2
  dx : Arr2
  dy : Arr2
  dndx : Arr2
  dmde : Arr2
  angle : Arr2
  angle_rho : Arr2

/-- `CGrid.__init__(x, y, mask=...)` for a Cartesian grid: store the vertex
arrays and mask, and compute every derived array once. -/
def CGrid.init (x y mask : Arr2) : CGrid :=
  ⟨x, y, mask, calc_rho x, calc_rho y, calc_u x, calc_u y, calc_v x, calc_v y,
   calc_psi x, calc_psi y, calc_dx x y, calc_dy x y, calc_dndx x y,
   calc_dmde x y, calc_angle x y, calc_angle_rho x y⟩

/-- Rebinding the `x_vert` attribute of an existing grid (plain Python
attribute assignment: no recomputation hook exists on `CGrid`). -/
def CGrid.setXvert (g : CGrid) (x : Arr2) : CGrid :=
  { g with x_vert := x }

/-- The `mask_u` property (src/octant/grid.py lines 695-696):
`mask_rho[:,1:]*mask_rho[:,:-1]`, recomputed from the current `mask_rho` on
every access. -/
def CGrid.mask_u (g : CGrid) : Arr2 :=
  (g.mask_rho.slice 0 0 1 0).mul (g.mask_rho.slice 0 0 0 1)

/-- The `mask_v` property (src/octant/grid.py lines 698-699):
`mask_rho[1:,:]*mask_rho[:-1,:]`. -/
def CGrid.mask_v (g : CGrid) : Arr2 :=
  (g.mask_rho.slice 1 0 0 0).mul (g.mask_rho.slice 0 1 0 0)

/-- The `mask_psi` property (src/octant/grid.py lines 701-703):
`mask_rho[1:,1:]*mask_rho[:-1,1:]*mask_rho[1:,:-1]*mask_rho[:-1,:-1]`. -/
def CGrid.mask_psi (g : CGrid) : Arr2 :=
  (((g.mask_rho.slice 1 0 1 0).mul (g.mask_rho.slice 0 1 1 0)).mul
      (g.mask_rho.slice 1 0 0 1)).mul (g.mask_rho.slice 0 1 0 1)

/-- `CGrid.mask_polygon(polyverts, mask_value)` (src/octant/grid.py lines
679-693): set `mask_rho` to `mask_value` at every rho-point the external
point-in-polygon primitive reports inside the polygon; `inside` abstracts
that primitive evaluated at the rho-point positions. -/
def CGrid.mask_polygon (g : CGrid) (inside : ℕ → ℕ → Bool) (mask_value : ℝ) :
    CGrid :=
  { g with
    mask_rho :=
      ⟨g.mask_rho.rows, g.mask_rho.cols, fun i j =>
        if inside i j then mask_value else g.mask_rho.entry i j⟩ }

/-- A sequence of `mask_polygon` updates applied in order. -/
def CGrid.applyMaskOps (g : CGrid) (ops : List ((ℕ → ℕ → Bool) × ℝ)) : CGrid :=
  ops.foldl (fun a p => a.mask_polygon p.1 p.2) g

/-- A concrete 3x3 vertex array used as a witness input. -/
def vtest : Arr2 :=
  ⟨3, 3, fun i j => (i : ℝ) + 2 * j⟩

/-- A 3x3 all-zero vertex array. -/
def vzero : Arr2 :=
  ⟨3, 3, fun _ _ => 0⟩

/-- A 3x3 all-one vertex array. -/
def vone : Arr2 :=
  ⟨3, 3, fun _ _ => 1⟩

/-! ### n-D arrays and the ocean `Depths` object (src/octant/ocean/depths.py) -/

/-- An n-D numpy array: a shape and a total entry function over index
lists. -/
structure NDArray where
  shape : List ℕ
  entry : List ℕ → ℝ

/-- Whether a tuple of integer indices is in range for a shape (numpy raises
`IndexError` otherwise); a shorter tuple indexes the leading axes. -/
def validKey : List ℕ → List ℕ → Bool
  | _, [] => true
  | [], _ :: _ => false
  | d :: ds, k :: ks => decide (k < d) && validKey ds ks

/-- `a[key]` for a tuple of integer indices: the subarray over the remaining
axes, or `none` for an out-of-range index (`IndexError`). -/
def NDArray.index (a : NDArray) (key : List ℕ) : Option NDArray :=
  match validKey a.shape key with
  | true => some ⟨a.shape.drop key.length, fun idx => a.entry (key ++ idx)⟩
  | false => none

/-- Map an index into the squeezed array back to an index into the original
array (length-1 axes take index 0). -/
def expandIdx : List ℕ → List ℕ → List ℕ
  | [], _ => []
  | d :: ds, idx =>
    if d = 1 then 0 :: expandIdx ds idx
    else idx.headD 0 :: expandIdx ds idx.tail

/-- `np.squeeze(a)`: drop the length-1 axes. -/
def NDArray.squeeze (a : NDArray) : NDArray :=
  ⟨a.shape.filter (fun d => d != 1), fun idx => a.entry (expandIdx a.shape idx)⟩

/-- `Depths.sc` for `grid='rho'` (src/octant/ocean/depths.py lines 34-40):
midpoints of `linspace(-1.0, 0.0, N+1)`. -/
def ocean_sc (N : ℕ) (k : ℕ) : ℝ :=
  0.5 * (linspace (-1.0) 0.0 (N + 1) (k + 1) + linspace (-1.0) 0.0 (N + 1) k)

/-- `Depths.Cs` (src/octant/ocean/depths.py lines 44-47). -/
def ocean_Cs (theta_s theta_b : ℝ) (N : ℕ) (k : ℕ) : ℝ :=
  (1 - theta_b) * Real.sinh (theta_s * ocean_sc N k) / Real.sinh theta_s +
    0.5 * theta_b *
      (Real.tanh (theta_s * (ocean_sc N k + 0.5)) - Real.tanh (0.5 * theta_s)) /
      Real.tanh (0.5 * theta_s)

/-- The 4-D array `z` filled by `Depths.__getitem__` (src/octant/ocean/
depths.py lines 62-70) when `zeta.shape == h.shape`: after
`zeta = zeta[newaxis, :]` it has shape `(1, N) + h.shape` and entries
`z0 + zeta*(1 + z0/h)` with `z0 = (sc[k] - Cs[k])*hc + Cs[k]*h`. -/
def ocean_z (hc theta_s theta_b : ℝ) (N : ℕ) (h zeta : NDArray) : NDArray :=
  ⟨1 :: N :: h.shape, fun idx =>
    (ocean_sc N (idx.tail.headD 0) -
          ocean_Cs theta_s theta_b N (idx.tail.headD 0)) * hc +
        ocean_Cs theta_s theta_b N (idx.tail.headD 0) * h.entry idx.tail.tail +
      zeta.entry idx.tail.tail *
        (1 + ((ocean_sc N (idx.tail.headD 0) -
            ocean_Cs theta_s theta_b N (idx.tail.headD 0)) * hc +
          ocean_Cs theta_s theta_b N (idx.tail.headD 0) * h.entry idx.tail.tail) /
          h.entry idx.tail.tail)⟩

/-- `Depths.__getitem__(key)` (src/octant/ocean/depths.py lines 51-72) for a
tuple key when `zeta.shape == h.shape` (no independent time dimension): the
`else` branch keeps `res_index = key` unchanged, a singleton time axis is
inserted on `zeta`, `z` of shape `(1, N) + h.shape` is filled, and
`squeeze(z[res_index])` is returned — the caller's key is applied to the
4-D `z` directly. -/
def ocean_getitem (hc theta_s theta_b : ℝ) (N : ℕ) (h zeta : NDArray)
    (key : List ℕ) : Option NDArray :=
  ((ocean_z hc theta_s theta_b N h zeta).index key).map NDArray.squeeze

/-- A 1x1 bathymetry array of constant `100`. -/
def h1x1 : NDArray :=
  ⟨[1, 1], fun _ => 100⟩

/-- A 1x1 zero free-surface array (`zeros(h.shape)`). -/
def zeta1x1 : NDArray :=
  ⟨[1, 1], fun _ => 0⟩

/-! ### Stretching-curve boundary values -/

/-- Helper: `tanh x` is nonzero for positive `x`. -/
lemma tanh_pos_of_pos {x : ℝ} (hx : 0 < x) : 0 < Real.tanh x := by
  rw [Real.tanh_eq_sinh_div_cosh]
  exact div_pos (Real.sinh_pos_iff.mpr hx) (Real.cosh_pos x)

/-- The kind-1 stretching curve satisfies `C(0) = 0` and `C(-1) = -1` for all
`theta_s > 0` (in particular on its published domain). -/
lemma Vstretching_1_boundary (ts tb : ℝ) (hts : 0 < ts) :
    Vstretching_1 ts tb 0 = 0 ∧ Vstretching_1 ts tb (-1) = -1 := by
  have hsinh : Real.sinh ts ≠ 0 := ne_of_gt (Real.sinh_pos_iff.mpr hts)
  have htanh : Real.tanh (0.5 * ts) ≠ 0 :=
    ne_of_gt (tanh_pos_of_pos (by linarith))
  constructor
  · have e1 : Real.sinh ((0 : ℝ) * ts) = 0 := by rw [zero_mul, Real.sinh_zero]
    have e2 : Real.tanh (ts * ((0 : ℝ) + 0.5)) = Real.tanh (0.5 * ts) := by
      ring_nf
    simp only [Vstretching_1]
    rw [e1, e2]
    field_simp
  · have e3 : Real.sinh ((-1 : ℝ) * ts) = -Real.sinh ts := by
      rw [neg_one_mul, Real.sinh_neg]
    have e4 : Real.tanh (ts * ((-1 : ℝ) + 0.5)) = -Real.tanh (0.5 * ts) := by
      rw [show ts * ((-1 : ℝ) + 0.5) = -(0.5 * ts) by ring, Real.tanh_neg]
    simp only [Vstretching_1]
    rw [e3, e4]
    field_simp
    ring

/-- The kind-2 stretching curve satisfies `C(0) = 0` and `C(-1) = -1` for all
nonzero `theta_s`. -/
lemma Vstretching_2_boundary (ts tb : ℝ) (hts : ts ≠ 0) :
    Vstretching_2 ts tb 0 = 0 ∧ Vstretching_2 ts tb (-1) = -1 := by
  have hcosh : (1 : ℝ) < Real.cosh ts := Real.one_lt_cosh.mpr hts
  constructor
  · simp only [Vstretching_2]
    rw [mul_zero, Real.cosh_zero]
    norm_num
  · simp only [Vstretching_2]
    rw [show ts * (-1 : ℝ) = -ts by ring, Real.cosh_neg,
      show (1.0 : ℝ) - Real.cosh ts = -(Real.cosh ts - 1.0) by ring, neg_div,
      div_self (by linarith)]

/-- The kind-3 stretching curve satisfies `C(0) = 0` and `C(-1) = -1` when
both exponents are strictly positive (`theta_b = 0` is excluded: see
`stretching_boundary_violation`). -/
lemma Vstretching_3_boundary (ts tb H : ℝ) (hts : 0 < ts) (htb : 0 < tb)
    (hH : H ≠ 0) :
    Vstretching_3 ts tb H 0 = 0 ∧ Vstretching_3 ts tb H (-1) = -1 := by
  have hlog : Real.log (Real.cosh H) ≠ 0 :=
    ne_of_gt (Real.log_pos (Real.one_lt_cosh.mpr hH))
  have hbot0 : Vstretching_3_Cbot tb H 0 = 0 := by
    simp only [Vstretching_3_Cbot]
    rw [show (0 : ℝ) + 1.0 = 1 by norm_num, Real.one_rpow, mul_one,
      div_self hlog]
    norm_num
  have hsur0 : Vstretching_3_Csur ts H 0 = 0 := by
    simp only [Vstretching_3_Csur]
    rw [abs_zero, Real.zero_rpow (ne_of_gt hts), mul_zero, Real.cosh_zero,
      Real.log_one, neg_zero, zero_div]
  have hbot1 : Vstretching_3_Cbot tb H (-1) = -1 := by
    simp only [Vstretching_3_Cbot]
    rw [show (-1 : ℝ) + 1.0 = 0 by norm_num, Real.zero_rpow (ne_of_gt htb),
      mul_zero, Real.cosh_zero, Real.log_one, zero_div]
    norm_num
  have hsur1 : Vstretching_3_Csur ts H (-1) = -1 := by
    simp only [Vstretching_3_Csur]
    rw [show |(-1 : ℝ)| = 1 by norm_num, Real.one_rpow, mul_one, neg_div,
      div_self hlog]
  refine ⟨?_, ?_⟩
  · rw [Vstretching_3, hbot0, hsur0]; ring
  · rw [Vstretching_3, hbot1, hsur1]; ring

/-- The kind-4 stretching curve satisfies `C(0) = 0` and `C(-1) = -1` when
`theta_s ≠ 0` and `theta_b > 0` (`theta_b = 0` is excluded: see
`stretching_boundary_violation`). -/
lemma Vstretching_4_boundary (ts tb : ℝ) (hts : ts ≠ 0) (htb : 0 < tb) :
    Vstretching_4 ts tb 0 = 0 ∧ Vstretching_4 ts tb (-1) = -1 := by
  have hcosh : (1 : ℝ) < Real.cosh ts := Real.one_lt_cosh.mpr hts
  have hden : (1.0 : ℝ) - Real.exp (-tb) ≠ 0 := by
    have : Real.exp (-tb) < 1 := Real.exp_lt_one_iff.mpr (by linarith)
    intro hzero
    rw [sub_eq_zero] at hzero
    rw [← hzero] at this
    norm_num at this
  constructor
  · simp only [Vstretching_4]
    split_ifs with hb
    · rw [mul_zero, Real.cosh_zero]
      norm_num
    · norm_num at hb
      linarith
  · simp only [Vstretching_4]
    split_ifs with hb
    · rw [show ts * (-1 : ℝ) = -ts by ring, Real.cosh_neg,
        show (1.0 : ℝ) - Real.cosh ts = -(Real.cosh ts - 1.0) by ring, neg_div,
        div_self (show Real.cosh ts - 1.0 ≠ 0 by intro hz; rw [sub_eq_zero] at hz; rw [hz] at hcosh; norm_num at hcosh)]
      rw [show tb * -1 = -tb by ring, Real.exp_neg]
      have h1 : (1 : ℝ) < Real.exp tb := Real.one_lt_exp_iff.mpr htb
      field_simp
      rw [div_eq_iff (show (1.0 : ℝ) * Real.exp tb - 1 ≠ 0 by nlinarith)]
      ring
    · norm_num at hb
      linarith

/-- C1.  On the published parameter domains, the stretching curves returned
by `get_Vstretching` do NOT all satisfy `C(-1) = -1` within `1e-10`: for
`stretch_kind = 4` with `theta_s = 5, theta_b = 0` (a pair the source's own
`assert` accepts) the code's `return -C` branch yields `C(-1) = +1`, and for
`stretch_kind = 3` with `theta_s = 1, theta_b = 0` the bottom curve collapses
(`0.0 ** 0.0 = 1.0`) and `C(-1)` misses `-1` by more than `0.5`.  Both
evaluations below are of the code as written; they contradict the claim. -/
theorem stretching_boundary_violation :
    ValidParams_4 5 0 ∧ Vstretching_4 5 0 (-1) = 1 ∧
      ValidParams_3 1 0 ∧ (1e-10 : ℝ) < |Vstretching_3 1 0 3 (-1) - (-1)| := by
  have h5 : (1 : ℝ) < Real.cosh 5 := Real.one_lt_cosh.mpr (by norm_num)
  have h3 : (1 : ℝ) < Real.cosh 3 := Real.one_lt_cosh.mpr (by norm_num)
  have hlog3 : Real.log (Real.cosh 3) ≠ 0 := ne_of_gt (Real.log_pos h3)
  refine ⟨⟨⟨by norm_num, by norm_num⟩, ⟨le_refl 0, by norm_num⟩⟩, ?_, ⟨by norm_num, le_refl 0⟩, ?_⟩
  · simp only [Vstretching_4]
    rw [if_neg (show ¬((0 : ℝ) > 0.0) by norm_num)]
    rw [show (5 : ℝ) * (-1) = -5 by norm_num, Real.cosh_neg,
      show (1.0 : ℝ) - Real.cosh 5 = -(Real.cosh 5 - 1.0) by ring, neg_div,
      div_self (show Real.cosh 5 - 1.0 ≠ 0 by intro hz; rw [sub_eq_zero] at hz; rw [hz] at h5; norm_num at h5)]
    norm_num
  · have hbot : Vstretching_3_Cbot 0 3 (-1) = 0 := by
      simp only [Vstretching_3_Cbot]
      rw [show (-1 : ℝ) + 1.0 = 0 by norm_num, Real.rpow_zero, mul_one,
        div_self hlog3]
      norm_num
    have hsur : Vstretching_3_Csur 1 3 (-1) = -1 := by
      simp only [Vstretching_3_Csur]
      rw [show |(-1 : ℝ)| = 1 by norm_num, Real.one_rpow, mul_one, neg_div,
        div_self hlog3]
    have hw : Vstretching_3_Cweight 3 (-1) = 0.5 * (1.0 + Real.tanh 1.5) := by
      simp only [Vstretching_3_Cweight]
      rw [show (3 : ℝ) * ((-1) + 0.5) = -(1.5 : ℝ) by norm_num, Real.tanh_neg]
      ring
    have htanh : 0 < Real.tanh (1.5 : ℝ) := tanh_pos_of_pos (by norm_num)
    rw [Vstretching_3, hbot, hsur, hw]
    rw [show 0.5 * (1.0 + Real.tanh 1.5) * 0 +
        (1.0 - 0.5 * (1.0 + Real.tanh 1.5)) * (-1) - (-1) =
        0.5 * (1.0 + Real.tanh 1.5) by ring]
    rw [abs_of_pos (by linarith)]
    linarith

/-! ### Depth boundary values and layer thicknesses -/

/-- Helper: transform-1 depth at `s = 0` is `zeta`. -/
lemma depths_1_at_zero (C : ℝ → ℝ) (h hc zeta : ℝ) (hC0 : C 0 = 0) :
    depths_1 C h hc 0 zeta = zeta := by
  simp [depths_1, Zo_1, hC0]

/-- Helper: transform-1 depth at `s = -1` is `-h` for nonzero `h`. -/
lemma depths_1_at_bottom (C : ℝ → ℝ) (h hc zeta : ℝ) (hC1 : C (-1) = -1)
    (hh : h ≠ 0) : depths_1 C h hc (-1) zeta = -h := by
  simp only [depths_1, Zo_1, hC1]
  field_simp

/-- Helper: transform-2 depth at `s = 0` is `zeta`. -/
lemma depths_2_at_zero (C : ℝ → ℝ) (h hc zeta : ℝ) (hC0 : C 0 = 0) :
    depths_2 C h hc 0 zeta = zeta := by
  simp [depths_2, Zo_2, hC0]

/-- Helper: transform-2 depth at `s = -1` is `-h` when `hc + h ≠ 0`. -/
lemma depths_2_at_bottom (C : ℝ → ℝ) (h hc zeta : ℝ) (hC1 : C (-1) = -1)
    (hne : hc + h ≠ 0) : depths_2 C h hc (-1) zeta = -h := by
  simp only [depths_2, Zo_2, hC1]
  rw [show hc * -1 + -1 * h = -(hc + h) by ring, neg_div, div_self hne]
  ring

/-- C2 counterexample.  The claim quantifies over EVERY `hc` for transform
kind 2; at `hc = -h` the transform divides by `hc + h = 0` (a NaN in the
floating-point source), and the bottom depth is not `-h`.  Here with the
stretching `C(s) = s` (which satisfies `C(0) = 0`, `C(-1) = -1`), `h = 1 > 0`,
`hc = -1`, `zeta = 0`, the kind-2 depth at `s = -1` is `0`, not `-1`. -/
theorem depths_bottom_counterexample :
    ((fun s : ℝ => s) 0 = 0) ∧ ((fun s : ℝ => s) (-1) = -1) ∧ (0 : ℝ) < 1 ∧
      depths_2 (fun s => s) 1 (-1) (-1) 0 ≠ -1 := by
  refine ⟨rfl, rfl, by norm_num, ?_⟩
  simp only [depths_2, Zo_2]
  norm_num

/-- C2 (amended).  For any stretching function with `C(0) = 0` and
`C(-1) = -1`, any `h > 0` and any `zeta`: for transform kind 1, under that
kind's own precondition `hc ≤ min(h)` (and no other constraint on `hc`),
and for transform kind 2, for every `hc` with `hc + h ≠ 0` (excluding only
the division-by-zero exhibited by `depths_bottom_counterexample`), the
depth at `s = 0` is exactly `zeta` and the depth at `s = -1` is exactly
`-h`, independent of `zeta`.  Each kind carries only its own `hc`
hypothesis. -/
theorem depths_boundary_amended (C : ℝ → ℝ) (h hc zeta : ℝ)
    (hC0 : C 0 = 0) (hC1 : C (-1) = -1) (hh : 0 < h) :
    (hc ≤ h →
      depths_1 C h hc 0 zeta = zeta ∧ depths_1 C h hc (-1) zeta = -h) ∧
      (hc + h ≠ 0 →
        depths_2 C h hc 0 zeta = zeta ∧ depths_2 C h hc (-1) zeta = -h) :=
  ⟨fun _ =>
    ⟨depths_1_at_zero C h hc zeta hC0,
     depths_1_at_bottom C h hc zeta hC1 (ne_of_gt hh)⟩,
   fun hk2 =>
    ⟨depths_2_at_zero C h hc zeta hC0,
     depths_2_at_bottom C h hc zeta hC1 hk2⟩⟩

/-- Witness for `depths_boundary_amended` at `C(s) = s`, `h = 2`, `hc = 1`,
`zeta = 3`, with both per-kind hypotheses discharged. -/
theorem depths_boundary_amended_witness :
    ((fun s : ℝ => s) 0 = 0) ∧ ((fun s : ℝ => s) (-1) = -1) ∧ (0 : ℝ) < 2 ∧
      (1 : ℝ) ≤ 2 ∧ (1 : ℝ) + 2 ≠ 0 ∧
      ((depths_1 (fun s => s) 2 1 0 3 = 3 ∧
          depths_1 (fun s => s) 2 1 (-1) 3 = -2) ∧
        (depths_2 (fun s => s) 2 1 0 3 = 3 ∧
          depths_2 (fun s => s) 2 1 (-1) 3 = -2)) :=
  ⟨rfl, rfl, by norm_num, by norm_num, by norm_num,
   (depths_boundary_amended (fun s => s) 2 1 3 rfl rfl (by norm_num)).1
     (by norm_num),
   (depths_boundary_amended (fun s => s) 2 1 3 rfl rfl (by norm_num)).2
     (by norm_num)⟩

/-- Helper: telescoping sum of pairwise differences. -/
lemma sum_map_range_sub (f : ℕ → ℝ) (n : ℕ) :
    ((List.range n).map fun k => f (k + 1) - f k).sum = f n - f 0 := by
  induction n with
  | zero => simp
  | succ m ih =>
    rw [List.range_succ, List.map_append, List.sum_append, ih]
    simp only [List.map_cons, List.map_nil, List.sum_cons, List.sum_nil]
    ring

/-- Helper: the first of the `N+1` w-levels used by `get_Hz` is `-1`. -/
lemma get_sw_zero (N : ℕ) : get_sw (N + 1) 0 = -1 := by
  simp only [get_sw, linspace]
  norm_num

/-- Helper: the last of the `N+1` w-levels used by `get_Hz` is `0`. -/
lemma get_sw_last (N : ℕ) (hN : 1 ≤ N) : get_sw (N + 1) N = 0 := by
  have hNne : (N : ℝ) ≠ 0 := Nat.cast_ne_zero.mpr (by omega)
  simp only [get_sw, linspace]
  push_cast
  rw [show ((N : ℝ) + 1 - 1) = (N : ℝ) by ring,
    show (0.0 : ℝ) - -1.0 = 1 by norm_num, one_mul, div_self hNne]
  norm_num

/-- C10 counterexample.  The claim quantifies over every `hc` (only kind 1
being restricted); for kind 2 at `hc = -h` the transform divides by zero and
the telescoped sum is no longer `zeta + h`: with `C(s) = s`, `h = 1`,
`hc = -1`, `zeta = 0`, `N = 1`, the layer-thickness sum is `0`, not
`0 + 1`. -/
theorem Hz_sum_counterexample :
    ((fun s : ℝ => s) 0 = 0) ∧ ((fun s : ℝ => s) (-1) = -1) ∧ (0 : ℝ) < 1 ∧
      (1 : ℕ) ≤ 1 ∧ (HzList (depths_2 (fun s => s) 1 (-1)) 1 0).sum ≠ 0 + 1 := by
  refine ⟨rfl, rfl, by norm_num, le_refl 1, ?_⟩
  simp only [HzList, List.range_succ, List.range_zero, List.map_append,
    List.map_cons, List.map_nil, List.sum_append, List.sum_cons, List.sum_nil,
    List.nil_append, depths_2, Zo_2, get_sw, linspace]
  norm_num

/-- C10 (amended).  For any stretching `C` with `C(0) = 0` and `C(-1) = -1`,
any `h > 0`, `zeta` and `N ≥ 1`: for transform kind 1, under that kind's own
precondition `hc ≤ min(h)`, and for transform kind 2, for every `hc` with
`hc + h ≠ 0` (excluding only the division-by-zero exhibited by
`Hz_sum_counterexample`), `get_Hz` produces exactly `N` layer thicknesses —
the pairwise differences of depths at the `N+1` evenly spaced w-levels —
and their sum telescopes to exactly `zeta + h`.  Each kind carries only its
own `hc` hypothesis. -/
theorem Hz_layers_amended (C : ℝ → ℝ) (h hc zeta : ℝ) (N : ℕ)
    (hC0 : C 0 = 0) (hC1 : C (-1) = -1) (hN : 1 ≤ N) (hh : 0 < h) :
    (hc ≤ h →
      (HzList (depths_1 C h hc) N zeta).length = N ∧
        (HzList (depths_1 C h hc) N zeta).sum = zeta + h) ∧
      (hc + h ≠ 0 →
        (HzList (depths_2 C h hc) N zeta).length = N ∧
          (HzList (depths_2 C h hc) N zeta).sum = zeta + h) := by
  constructor
  · intro hk1
    have hsum1 : (HzList (depths_1 C h hc) N zeta).sum =
        depths_1 C h hc (get_sw (N + 1) N) zeta -
          depths_1 C h hc (get_sw (N + 1) 0) zeta :=
      sum_map_range_sub (fun k => depths_1 C h hc (get_sw (N + 1) k) zeta) N
    rw [get_sw_last N hN, get_sw_zero] at hsum1
    rw [depths_1_at_zero C h hc zeta hC0,
      depths_1_at_bottom C h hc zeta hC1 (ne_of_gt hh)] at hsum1
    refine ⟨by simp [HzList], ?_⟩
    rw [hsum1]; ring
  · intro hk2
    have hsum2 : (HzList (depths_2 C h hc) N zeta).sum =
        depths_2 C h hc (get_sw (N + 1) N) zeta -
          depths_2 C h hc (get_sw (N + 1) 0) zeta :=
      sum_map_range_sub (fun k => depths_2 C h hc (get_sw (N + 1) k) zeta) N
    rw [get_sw_last N hN, get_sw_zero] at hsum2
    rw [depths_2_at_zero C h hc zeta hC0,
      depths_2_at_bottom C h hc zeta hC1 hk2] at hsum2
    refine ⟨by simp [HzList], ?_⟩
    rw [hsum2]; ring

/-- Witness for `Hz_layers_amended` at `C(s) = s`, `h = 2`, `hc = 1`,
`zeta = 3`, `N = 2`, with both per-kind hypotheses discharged. -/
theorem Hz_layers_amended_witness :
    ((fun s : ℝ => s) 0 = 0) ∧ ((fun s : ℝ => s) (-1) = -1) ∧ (1 : ℕ) ≤ 2 ∧
      (0 : ℝ) < 2 ∧ (1 : ℝ) ≤ 2 ∧ (1 : ℝ) + 2 ≠ 0 ∧
      ((HzList (depths_1 (fun s => s) 2 1) 2 3).length = 2 ∧
        (HzList (depths_1 (fun s => s) 2 1) 2 3).sum = 3 + 2) ∧
      ((HzList (depths_2 (fun s => s) 2 1) 2 3).length = 2 ∧
        (HzList (depths_2 (fun s => s) 2 1) 2 3).sum = 3 + 2) :=
  ⟨rfl, rfl, by norm_num, by norm_num, by norm_num, by norm_num,
   (Hz_layers_amended (fun s => s) 2 1 3 2 rfl rfl (by norm_num)
       (by norm_num)).1 (by norm_num),
   (Hz_layers_amended (fun s => s) 2 1 3 2 rfl rfl (by norm_num)
       (by norm_num)).2 (by norm_num)⟩

/-! ### The C3 scenario -/

/-- Helper numeric bound: `exp(1/4) < 1.29`. -/
lemma exp_quarter_lt_bound : Real.exp 0.25 < 1.29 := by
  have h4 : Real.exp 0.25 ^ (4 : ℕ) = Real.exp 1 := by
    rw [← Real.exp_nat_mul]; norm_num
  by_contra hcon
  push_neg at hcon
  have hp : (1.29 : ℝ) ^ (4 : ℕ) ≤ Real.exp 0.25 ^ (4 : ℕ) :=
    pow_le_pow_left (by norm_num) hcon 4
  rw [h4] at hp
  have hlt := Real.exp_one_lt_d9
  norm_num at hp
  linarith

/-- Helper numeric bound: `1.35 < cosh 4.75`. -/
lemma cosh_475_gt : (1.35 : ℝ) < Real.cosh 4.75 := by
  have h1 : Real.exp 1 ≤ Real.exp 4.75 := Real.exp_le_exp.mpr (by norm_num)
  have h2 := Real.exp_one_gt_d9
  have h3 : Real.cosh 4.75 = (Real.exp 4.75 + Real.exp (-4.75)) / 2 :=
    Real.cosh_eq 4.75
  have h4 : 0 < Real.exp (-4.75 : ℝ) := Real.exp_pos _
  nlinarith

/-- Helper: `cosh 5 ≤ cosh 4.75 * exp 0.25`. -/
lemma cosh_5_le : Real.cosh 5 ≤ Real.cosh 4.75 * Real.exp 0.25 := by
  have hadd := Real.cosh_add 4.75 0.25
  rw [show (4.75 : ℝ) + 0.25 = 5 by norm_num] at hadd
  have hs : Real.sinh 4.75 ≤ Real.cosh 4.75 := by
    have := Real.cosh_sub_sinh (4.75 : ℝ)
    nlinarith [Real.exp_pos (-4.75 : ℝ)]
  have hsinh025 : 0 ≤ Real.sinh (0.25 : ℝ) := by
    rw [Real.sinh_nonneg_iff]; norm_num
  have hes := Real.cosh_add_sinh (0.25 : ℝ)
  have key : 0 ≤ (Real.cosh 4.75 - Real.sinh 4.75) * Real.sinh 0.25 :=
    mul_nonneg (by linarith) hsinh025
  have hE : Real.cosh 4.75 * Real.exp 0.25 =
      Real.cosh 4.75 * Real.cosh 0.25 + Real.cosh 4.75 * Real.sinh 0.25 := by
    rw [← hes]; ring
  rw [hadd, hE]
  nlinarith [key]

/-- Helper numeric bound: `cosh 5 > 74`. -/
lemma cosh_5_gt : (74 : ℝ) < Real.cosh 5 := by
  have h5 : Real.exp 1 ^ (5 : ℕ) = Real.exp 5 := by
    rw [← Real.exp_nat_mul]; norm_num
  have hp : (2.7182818283 : ℝ) ^ (5 : ℕ) ≤ Real.exp 1 ^ (5 : ℕ) :=
    pow_le_pow_left (by norm_num) (le_of_lt Real.exp_one_gt_d9) 5
  rw [h5] at hp
  have h3 : Real.cosh 5 = (Real.exp 5 + Real.exp (-5)) / 2 := Real.cosh_eq 5
  have h4 : 0 < Real.exp (-5 : ℝ) := Real.exp_pos _
  norm_num at hp
  nlinarith

/-- Helper numeric bound: `cosh 0.25 < 1.145`. -/
lemma cosh_quarter_lt : Real.cosh 0.25 < 1.145 := by
  have h3 : Real.cosh 0.25 = (Real.exp 0.25 + Real.exp (-0.25)) / 2 :=
    Real.cosh_eq 0.25
  have h1 : Real.exp (-0.25 : ℝ) ≤ 1 := by
    rw [show (1 : ℝ) = Real.exp 0 by rw [Real.exp_zero]]
    exact Real.exp_le_exp.mpr (by norm_num)
  have h2 := exp_quarter_lt_bound
  nlinarith

/-- C3.  Evaluating the code on the scenario
`h = [[100.0]], hc = 20.0, theta_s = 5.0, theta_b = 0.0, stretch_kind = 4,
transform_kind = 2, N = 10, zeta = 0`: `get_zrho` dispatches to exactly the
function `zrho_scenario`, whose bottom value is POSITIVE (about `+48.8`) and
whose top value is negative, contradicting the claimed profile of
monotonically increasing depths from near `-100` up to near `0`.  The root
cause is the `return -C` branch of `get_Vstretching_4` at `theta_b = 0`
(see `stretching_boundary_violation`). -/
theorem zrho_scenario_violation :
    get_zrho 2 4 10 5 0 100 20 0 3 = PyResult.ok zrho_scenario ∧
      0 < zrho_scenario 0 ∧ zrho_scenario 9 < 0 := by
  have hd : (0 : ℝ) < Real.cosh 5 - 1 := by
    have := Real.one_lt_cosh.mpr (show (5 : ℝ) ≠ 0 by norm_num)
    linarith
  have hVs : get_Vstretching 4 5 0 3 = PyResult.ok (Vstretching_4 5 0) := by
    simp only [get_Vstretching]
    norm_num
    intro hnot
    exact absurd (show ValidParams_4 5 0 from
      ⟨⟨by norm_num, by norm_num⟩, le_refl 0, by norm_num⟩) hnot
  have hGd : get_depths 2 (Vstretching_4 5 0) 100 20 =
      PyResult.ok (fun s zeta => depths_2 (Vstretching_4 5 0) 100 20 s zeta) := by
    simp only [get_depths]
    norm_num
  refine ⟨?_, ?_, ?_⟩
  · simp only [get_zrho, hVs, hGd]
    rfl
  · have hs0 : get_srho 10 0 = -0.95 := by
      simp only [get_srho, linspace]
      norm_num
    have hC : Vstretching_4 5 0 (-0.95 : ℝ) =
        (Real.cosh 4.75 - 1) / (Real.cosh 5 - 1) := by
      simp only [Vstretching_4]
      rw [if_neg (show ¬((0 : ℝ) > 0.0) by norm_num)]
      rw [show (5 : ℝ) * (-0.95) = -(4.75 : ℝ) by norm_num, Real.cosh_neg]
      rw [show (1.0 : ℝ) - Real.cosh 4.75 = -(Real.cosh 4.75 - 1) by ring,
        neg_div, neg_neg]
      norm_num
    have hCgt : (0.19 : ℝ) < (Real.cosh 4.75 - 1) / (Real.cosh 5 - 1) := by
      rw [lt_div_iff hd]
      have h1 := cosh_5_le
      have h2 := cosh_475_gt
      have h3 := exp_quarter_lt_bound
      have h4 : (0 : ℝ) < Real.cosh 4.75 := Real.cosh_pos _
      nlinarith [mul_lt_mul_of_pos_left h3
        (show (0 : ℝ) < 0.19 * Real.cosh 4.75 by positivity)]
    simp only [zrho_scenario, depths_2, Zo_2, hs0, hC]
    have hnum : (0 : ℝ) < 20 * (-0.95) +
        (Real.cosh 4.75 - 1) / (Real.cosh 5 - 1) * 100 := by nlinarith [hCgt]
    have hfrac : (0 : ℝ) < (20 * (-0.95) +
        (Real.cosh 4.75 - 1) / (Real.cosh 5 - 1) * 100) / (20 + 100) :=
      div_pos hnum (by norm_num)
    nlinarith [hfrac]
  · have hs9 : get_srho 10 9 = -0.05 := by
      simp only [get_srho, linspace]
      norm_num
    have hC : Vstretching_4 5 0 (-0.05 : ℝ) =
        (Real.cosh 0.25 - 1) / (Real.cosh 5 - 1) := by
      simp only [Vstretching_4]
      rw [if_neg (show ¬((0 : ℝ) > 0.0) by norm_num)]
      rw [show (5 : ℝ) * (-0.05) = -(0.25 : ℝ) by norm_num, Real.cosh_neg]
      rw [show (1.0 : ℝ) - Real.cosh 0.25 = -(Real.cosh 0.25 - 1) by ring,
        neg_div, neg_neg]
      norm_num
    have hClt : (Real.cosh 0.25 - 1) / (Real.cosh 5 - 1) < 0.01 := by
      rw [div_lt_iff hd]
      have h1 := cosh_quarter_lt
      have h2 := cosh_5_gt
      nlinarith
    simp only [zrho_scenario, depths_2, Zo_2, hs9, hC]
    have hnum : 20 * (-0.05) +
        (Real.cosh 0.25 - 1) / (Real.cosh 5 - 1) * 100 < 0 := by
      nlinarith [hClt]
    have hfrac : (20 * (-0.05) +
        (Real.cosh 0.25 - 1) / (Real.cosh 5 - 1) * 100) / (20 + 100) < 0 :=
      div_neg_of_neg_of_pos hnum (by norm_num)
    nlinarith [hfrac]

/-! ### Failure semantics of the dispatchers, and the Coriolis parameter -/

/-- C5 counterexample.  `get_depths` called with `Vtransform = 3` does not
raise an unsupported-configuration error: its `if/elif` chain has no `else`,
so the call silently returns `None`. -/
theorem get_depths_silent_none :
    get_depths 3 (fun s => s) 1 1 = PyResult.retNone ∧
      (PyResult.retNone : PyResult (ℝ → ℝ → ℝ)) ≠ PyResult.raised := by
  constructor
  · simp only [get_depths]
    norm_num
  · intro h
    exact PyResult.noConfusion h

/-- C5 (amended).  `get_Vstretching` with a stretch kind outside `{1,2,3,4}`
raises (`raise Exception`), as the claim states; but `get_depths` with a
transform kind outside `{1,2}` silently returns `None` instead of raising. -/
theorem dispatch_failure_amended :
    (∀ k : ℤ, ¬(k = 1 ∨ k = 2 ∨ k = 3 ∨ k = 4) → ∀ ts tb H : ℝ,
        get_Vstretching k ts tb H = PyResult.raised) ∧
      (∀ k : ℤ, ¬(k = 1 ∨ k = 2) → ∀ (C : ℝ → ℝ) (h hc : ℝ),
        get_depths k C h hc = PyResult.retNone) := by
  constructor
  · intro k hk ts tb H
    have h1 : ¬(k = 1) := fun h => hk (Or.inl h)
    have h2 : ¬(k = 2) := fun h => hk (Or.inr (Or.inl h))
    have h3 : ¬(k = 3) := fun h => hk (Or.inr (Or.inr (Or.inl h)))
    have h4 : ¬(k = 4) := fun h => hk (Or.inr (Or.inr (Or.inr h)))
    simp only [get_Vstretching]
    rw [if_neg h1, if_neg h2, if_neg h3, if_neg h4]
  · intro k hk C h hc
    have h1 : ¬(k = 1) := fun h => hk (Or.inl h)
    have h2 : ¬(k = 2) := fun h => hk (Or.inr h)
    simp only [get_depths]
    rw [if_neg h1, if_neg h2]

/-- Witness for `dispatch_failure_amended` at stretch kind 5 and transform
kind 3. -/
theorem dispatch_failure_amended_witness :
    (¬((5 : ℤ) = 1 ∨ (5 : ℤ) = 2 ∨ (5 : ℤ) = 3 ∨ (5 : ℤ) = 4)) ∧
      get_Vstretching 5 1 0 3 = PyResult.raised ∧
      (¬((3 : ℤ) = 1 ∨ (3 : ℤ) = 2)) ∧
      get_depths 3 (fun s => s) 1 1 = PyResult.retNone :=
  ⟨by decide, dispatch_failure_amended.1 5 (by decide) 1 0 3,
   by decide, dispatch_failure_amended.2 3 (by decide) (fun s => s) 1 1⟩

/-- C4.  The source computes the stored Coriolis parameter with the COSINE
of the rho-point latitude, not the sine: at latitude 0 (the equator) the
stored value is `1.458e-4` while the claimed `2 * 7.29e-5 * sin(lat)` is `0`
there, so the two differ. -/
theorem coriolis_uses_cos_not_sin :
    CGrid_coriolis 0 = 1.458e-4 ∧
      2 * 7.29e-5 * Real.sin (0 * Real.pi / 180) = 0 ∧
      (1.458e-4 : ℝ) ≠ 0 := by
  refine ⟨?_, ?_, by norm_num⟩
  · simp only [CGrid_coriolis]
    rw [zero_mul, zero_div, Real.cos_zero]
    norm_num
  · rw [zero_mul, zero_div, Real.sin_zero, mul_zero]

/-! ### C-grid masks, subgrids and caching behaviour -/

/-- C6.  For every grid and every mask state reachable by a sequence of
`mask_polygon` updates, the edge masks — which are `property` accessors,
never stored — satisfy `mask_u[i,j] = mask_rho[i,j]*mask_rho[i,j+1]`,
`mask_v[i,j] = mask_rho[i,j]*mask_rho[i+1,j]`, and `mask_psi[i,j]` equals
the product of the four surrounding `mask_rho` entries. -/
theorem mask_edges_derived (g : CGrid) (ops : List ((ℕ → ℕ → Bool) × ℝ))
    (i j : ℕ) :
    ((g.applyMaskOps ops).mask_u.entry i j =
        (g.applyMaskOps ops).mask_rho.entry i j *
          (g.applyMaskOps ops).mask_rho.entry i (j + 1)) ∧
      ((g.applyMaskOps ops).mask_v.entry i j =
        (g.applyMaskOps ops).mask_rho.entry i j *
          (g.applyMaskOps ops).mask_rho.entry (i + 1) j) ∧
      ((g.applyMaskOps ops).mask_psi.entry i j =
        (g.applyMaskOps ops).mask_rho.entry i j *
          (g.applyMaskOps ops).mask_rho.entry i (j + 1) *
          (g.applyMaskOps ops).mask_rho.entry (i + 1) j *
          (g.applyMaskOps ops).mask_rho.entry (i + 1) (j + 1)) := by
  refine ⟨?_, ?_, ?_⟩ <;>
    simp only [CGrid.mask_u, CGrid.mask_v, CGrid.mask_psi, Arr2.mul,
      Arr2.slice, Nat.add_zero, Nat.zero_add] <;>
    ring

/-- C7.  For a vertex array of shape `(Ny+1, Nx+1)` with `Ny, Nx ≥ 2`, the
derived point families have shapes rho `(Ny,Nx)`, u `(Ny,Nx-1)`,
v `(Ny-1,Nx)`, psi `(Ny-1,Nx-1)`, rho is the 4-vertex average, u and v the
stated 2-vertex averages, and psi the vertex array trimmed by one ring. -/
theorem subgrid_shapes_and_averages (v : Arr2) (Ny Nx : ℕ)
    (hr : v.rows = Ny + 1) (hcl : v.cols = Nx + 1) (h2 : 2 ≤ Ny)
    (h3 : 2 ≤ Nx) :
    ((calc_rho v).rows = Ny ∧ (calc_rho v).cols = Nx) ∧
      ((calc_u v).rows = Ny ∧ (calc_u v).cols = Nx - 1) ∧
      ((calc_v v).rows = Ny - 1 ∧ (calc_v v).cols = Nx) ∧
      ((calc_psi v).rows = Ny - 1 ∧ (calc_psi v).cols = Nx - 1) ∧
      (∀ i j, (calc_rho v).entry i j =
        (v.entry i j + v.entry i (j + 1) + v.entry (i + 1) j +
            v.entry (i + 1) (j + 1)) / 4) ∧
      (∀ i j, (calc_u v).entry i j =
        (v.entry i (j + 1) + v.entry (i + 1) (j + 1)) / 2) ∧
      (∀ i j, (calc_v v).entry i j =
        (v.entry (i + 1) j + v.entry (i + 1) (j + 1)) / 2) ∧
      (∀ i j, (calc_psi v).entry i j = v.entry (i + 1) (j + 1)) := by
  refine ⟨⟨?_, ?_⟩, ⟨?_, ?_⟩, ⟨?_, ?_⟩, ⟨?_, ?_⟩, ?_, ?_, ?_, ?_⟩ <;>
    simp only [calc_rho, calc_u, calc_v, calc_psi, Arr2.smul, Arr2.add,
      Arr2.slice, hr, hcl, Nat.add_zero, Nat.zero_add]
  · omega
  · omega
  · omega
  · omega
  · omega
  · omega
  · omega
  · omega
  · intro i j; ring
  · intro i j; ring
  · intro i j; ring
  · intro i j; trivial

/-- Witness for `subgrid_shapes_and_averages` on the concrete 3x3 vertex
array `vtest` (so `Ny = Nx = 2`). -/
theorem subgrid_shapes_and_averages_witness :
    vtest.rows = 2 + 1 ∧ vtest.cols = 2 + 1 ∧ 2 ≤ 2 ∧
      (((calc_rho vtest).rows = 2 ∧ (calc_rho vtest).cols = 2) ∧
        ((calc_u vtest).rows = 2 ∧ (calc_u vtest).cols = 2 - 1) ∧
        ((calc_v vtest).rows = 2 - 1 ∧ (calc_v vtest).cols = 2) ∧
        ((calc_psi vtest).rows = 2 - 1 ∧ (calc_psi vtest).cols = 2 - 1) ∧
        (∀ i j, (calc_rho vtest).entry i j =
          (vtest.entry i j + vtest.entry i (j + 1) + vtest.entry (i + 1) j +
              vtest.entry (i + 1) (j + 1)) / 4) ∧
        (∀ i j, (calc_u vtest).entry i j =
          (vtest.entry i (j + 1) + vtest.entry (i + 1) (j + 1)) / 2) ∧
        (∀ i j, (calc_v vtest).entry i j =
          (vtest.entry (i + 1) j + vtest.entry (i + 1) (j + 1)) / 2) ∧
        (∀ i j, (calc_psi vtest).entry i j = vtest.entry (i + 1) (j + 1))) :=
  ⟨rfl, rfl, le_refl 2,
    subgrid_shapes_and_averages vtest 2 2 rfl rfl (le_refl 2) (le_refl 2)⟩

/-- C8 counterexample.  `CGrid` computes its derived arrays once in
`__init__` and stores them as plain attributes; rebinding the vertex array
does NOT invalidate them.  Concretely: construct a grid from all-zero
vertices, rebind `x_vert` to all-one vertices; the stored `x_rho[0,0]` is
still `0`, while recomputing from the current vertices gives `1`. -/
theorem stale_subgrids_counterexample :
    ((CGrid.init vzero vzero (Arr2.ones 2 2)).setXvert vone).x_rho.entry 0 0
        = 0 ∧
      (calc_rho
          (((CGrid.init vzero vzero (Arr2.ones 2 2)).setXvert vone).x_vert)).entry
          0 0 = 1 ∧
      (0 : ℝ) ≠ 1 := by
  refine ⟨?_, ?_, by norm_num⟩
  · simp only [CGrid.init, CGrid.setXvert, calc_rho, Arr2.smul, Arr2.add,
      Arr2.slice, vzero]
    norm_num
  · simp only [CGrid.init, CGrid.setXvert, calc_rho, Arr2.smul, Arr2.add,
      Arr2.slice, vone]
    norm_num

/-- C8 (amended).  Every derived array `__init__` stores — the four point
families in both coordinates, `dx`, `dy`, `dndx`, `dmde`, `angle` and
`angle_rho` — is computed once at construction from the construction-time
vertices and served unchanged after any rebinding of `x_vert` (no
invalidation happens); only the masks are the exception: `mask_u` is a
property recomputed on access from the current `mask_rho`, so it always
satisfies the derived-product formula even after vertex rebinding and
`mask_polygon` updates. -/
theorem derived_cached_amended (x y mask xnew : Arr2) :
    (((CGrid.init x y mask).setXvert xnew).x_rho = calc_rho x) ∧
      (((CGrid.init x y mask).setXvert xnew).y_rho = calc_rho y) ∧
      (((CGrid.init x y mask).setXvert xnew).x_u = calc_u x) ∧
      (((CGrid.init x y mask).setXvert xnew).y_u = calc_u y) ∧
      (((CGrid.init x y mask).setXvert xnew).x_v = calc_v x) ∧
      (((CGrid.init x y mask).setXvert xnew).y_v = calc_v y) ∧
      (((CGrid.init x y mask).setXvert xnew).x_psi = calc_psi x) ∧
      (((CGrid.init x y mask).setXvert xnew).y_psi = calc_psi y) ∧
      (((CGrid.init x y mask).setXvert xnew).dx = calc_dx x y) ∧
      (((CGrid.init x y mask).setXvert xnew).dy = calc_dy x y) ∧
      (((CGrid.init x y mask).setXvert xnew).dndx = calc_dndx x y) ∧
      (((CGrid.init x y mask).setXvert xnew).dmde = calc_dmde x y) ∧
      (((CGrid.init x y mask).setXvert xnew).angle = calc_angle x y) ∧
      (((CGrid.init x y mask).setXvert xnew).angle_rho = calc_angle_rho x y) ∧
      (∀ ops i j,
        ((((CGrid.init x y mask).setXvert xnew).applyMaskOps ops).mask_u).entry
            i j =
          (((CGrid.init x y mask).setXvert xnew).applyMaskOps
                ops).mask_rho.entry i j *
            (((CGrid.init x y mask).setXvert xnew).applyMaskOps
                ops).mask_rho.entry i (j + 1)) := by
  refine ⟨rfl, rfl, rfl, rfl, rfl, rfl, rfl, rfl, rfl, rfl, rfl, rfl, rfl,
    rfl, ?_⟩
  intro ops i j
  simp only [CGrid.mask_u, Arr2.mul, Arr2.slice, Nat.add_zero, Nat.zero_add]
  ring

/-! ### The ocean Depths indexing contract -/

/-- C9.  For a `Depths` object whose `zeta` has no independent time
dimension (`zeta.shape == h.shape`, here both 1x1, with `N = 2` levels),
the 3-index form is NOT valid for every in-range vertical index: the code
routes the caller's key through `res_index = key` onto the internally 4-D
`z`, so `depths[1, 0, 0]` indexes the singleton TIME axis with `1` and
raises `IndexError` (`none`), while the explicit 4-index form
`depths[0, 1, 0, 0]` succeeds. -/
theorem depths_getitem_time_axis_bug :
    ocean_getitem 20 5 0 2 h1x1 zeta1x1 [1, 0, 0] = none ∧
      (ocean_getitem 20 5 0 2 h1x1 zeta1x1 [0, 1, 0, 0]).isSome = true := by
  constructor
  · rfl
  · rfl

end Octant

end
